import Mathlib

/-!
Verification of `src/make_feedback_tool_data/make_data_for_feedback_tool.py`
(govuk-corona-analysis): a shallow embedding of the phrase-mention extraction
pipeline — chunk-pair classification, bracket/plus stripping, span resolution
and per-row aggregation — together with theorems about its behaviour.

Pure helpers (`PreProcess.compute_combinations`, `PreProcess.find_needle`)
are not part of the repository snapshot under `src/`; they are modelled from
the specification and marked as such in their doc comments.  Everything else
is translated directly from the Python source.
-/

/-- ASCII lower-casing, character by character, mirroring Python `str.lower`
on the ASCII range (used at lines 75-76 and 102 of the source). -/
def lowerStr (s : String) : String :=
  String.mk (s.data.map Char.toLower)

/-- The character class of `re.sub(r"[()\[\]+]", "", _)` at lines 83-84
and 119 of the source: round brackets, square brackets and plus. -/
def isStripChar (c : Char) : Bool :=
  c == '(' || c == ')' || c == '[' || c == ']' || c == '+'

/-- Embedding of `re.sub(r"[()\[\]+]", "", s)`: every occurrence of the five
characters is deleted outright (not replaced by a space). -/
def stripBrackets (s : String) : String :=
  String.mk (s.data.filter (fun c => !(isStripChar c)))

/-- A chunk produced by the grammar-driven chunk parser: its grammar label
and the surface text of the span. -/
structure Chunk where
  label : String
  text : String
deriving DecidableEq

/-- The Phrase Mention record appended at line 86 of
`extract_phrase_mentions`: `(key, phrase, mention_theme, (arg1, arg2))`. -/
structure PhraseMention where
  key : String × String
  phrase : String
  theme : String
  args : String × String
deriving DecidableEq

/-- The six label pairs accepted by the membership test at lines 78-80 of
`extract_phrase_mentions`. -/
def allowed_keys : List (String × String) :=
  [("verb", "noun"), ("verb", "prep_noun"), ("verb", "noun_verb"),
   ("noun", "prep_noun"), ("prep_noun", "noun"), ("prep_noun", "prep_noun")]

/-- Body of the per-combination step of `extract_phrase_mentions`
(lines 74-86): compute the label-pair key and the lowercased chunk texts;
if the key is allowed, build the theme from the unstripped lowercase texts,
strip brackets from both args, and emit the mention; otherwise emit
nothing.  The two regex classifiers are opaque collaborators, passed in as
functions. -/
def process_combo (regex_group_verbs regex_for_theme : String → String)
    (c1 c2 : Chunk) : Option PhraseMention :=
  let key := (c1.label, c2.label)
  let arg1 := lowerStr c1.text
  let arg2 := lowerStr c2.text
  if key ∈ allowed_keys then
    let mention_theme := regex_group_verbs arg1 ++ " - " ++ regex_for_theme arg2
    let arg1s := stripBrackets arg1
    let arg2s := stripBrackets arg2
    some ⟨key, arg1s ++ " " ++ arg2s, mention_theme, (arg1s, arg2s)⟩
  else
    none

/-- Modelled from the spec: `PreProcess.compute_combinations` is not under
`src/`.  Section 4.2: all order-preserving 2-combinations of one sentence's
chunk sequence, each unordered pair produced once, in index order. -/
def combinations2 : List Chunk → List (Chunk × Chunk)
  | [] => []
  | c :: rest => rest.map (fun d => (c, d)) ++ combinations2 rest

/-- Modelled from the spec: `PreProcess.compute_combinations` over a list of
sentences — each sentence contributes its own 2-combinations independently,
concatenated in sentence order; sentences with fewer than two chunks
contribute nothing. -/
def compute_combinations (sents : List (List Chunk)) : List (Chunk × Chunk) :=
  (sents.map combinations2).flatten

/-- One iteration of the row loop of `extract_phrase_mentions`
(lines 70-86): the mentions collected for a single comment row whose parsed
chunk sentences are `sents`. -/
def extract_phrase_mentions_row (regex_group_verbs regex_for_theme : String → String)
    (sents : List (List Chunk)) : List PhraseMention :=
  (compute_combinations sents).filterMap
    (fun combo => process_combo regex_group_verbs regex_for_theme combo.1 combo.2)

/-- Whole-dataframe `extract_phrase_mentions` (lines 65-88): one mention
list per row, in row order; `parsed` is the chunk-parser output for each
row's `pos_tag` value. -/
def extract_phrase_mentions (regex_group_verbs regex_for_theme : String → String)
    (parsed : List (List (List Chunk))) : List (List PhraseMention) :=
  parsed.map (extract_phrase_mentions_row regex_group_verbs regex_for_theme)

/-- Modelled from the spec: scanning core of `PreProcess.find_needle`
(section 4.4), which is not under `src/` — find the first substring of the
haystack that matches the needle case-insensitively, returned with the
casing it has in the haystack, or none when there is no match. -/
def findNeedleScan (needle : List Char) : List Char → Option (List Char)
  | [] => if needle = [] then some [] else none
  | c :: rest =>
    if ((c :: rest).take needle.length).map Char.toLower = needle.map Char.toLower then
      some ((c :: rest).take needle.length)
    else
      findNeedleScan needle rest

/-- Modelled from the spec: the span located by `PreProcess.find_needle` for
one phrase, or none when absent. -/
def find_needle_res (phrase haystack : String) : Option String :=
  (findNeedleScan phrase.data haystack.data).map (fun l => String.mk l)

/-- Modelled from the spec: `PreProcess.find_needle` returns a mapping
(dict) whose values are consumed downstream; here a single-entry mapping
from the phrase to its located span or absence. -/
def find_needle (phrase haystack : String) : List (String × Option String) :=
  [(phrase, find_needle_res phrase haystack)]

/-- Python `str.split()` with no argument: the maximal runs of
non-whitespace characters, dropping all whitespace (used at line 119). -/
def splitOnWs (acc : List Char) : List Char → List (List Char)
  | [] => if acc = [] then [] else [acc.reverse]
  | c :: rest =>
    if c.isWhitespace then
      if acc = [] then splitOnWs [] rest else acc.reverse :: splitOnWs [] rest
    else
      splitOnWs (c :: acc) rest

/-- Python `sep.join(parts)`. -/
def joinWith (sep : String) : List String → String
  | [] => ""
  | [s] => s
  | s :: rest => s ++ sep ++ joinWith sep rest

/-- Lines 118-119 of `create_phrase_level_columns`: `Q3_x` with a missing
value replaced by the empty string, then bracket/plus characters stripped
and whitespace runs collapsed to single spaces
(`' '.join(re.sub(r"[()\[\]+]", "", x).split())`). -/
def Q3_x_edit (q3x : Option String) : String :=
  joinWith " " ((splitOnWs [] (stripBrackets (q3x.getD "")).data).map (fun w => String.mk w))

/-- Lines 101-102 of `create_phrase_level_data`: the `*_dict` cell for one
row.  A present mention list maps `find_needle` over each mention's phrase
against the LOWER-CASED `Q3_x_edit` text (`x[1].lower()`).  A missing/NaN
source cell is a float in pandas, and the comprehension `for _, phrase, _, _
in x[0]` then raises `TypeError: 'float' object is not iterable`; the raise
is modelled as `none`. -/
def create_phrase_dict (mentions : Option (List PhraseMention)) (q3xEdit : String) :
    Option (List (List (String × Option String))) :=
  match mentions with
  | none => none
  | some ms => some (ms.map (fun m => find_needle m.phrase (lowerStr q3xEdit)))

/-- A pandas cell of the `*_dict` column as line 105 sees it: either the
float NaN or a list of `find_needle` dicts; `isinstance(x, float)`
distinguishes the two. -/
inductive DictCell where
  | nanFloat : DictCell
  | listVal : List (List (String × Option String)) → DictCell
deriving DecidableEq

/-- Lines 103-106 of `create_phrase_level_data`: the `*_list` cell —
`[value for phrase_dict in x for value in phrase_dict.values() if value is
not None]` when the `*_dict` cell is a list, and `[]` when it is a float
(NaN). -/
def create_phrase_list : DictCell → List String
  | DictCell.nanFloat => []
  | DictCell.listVal dicts => dicts.flatMap (fun d => d.filterMap (fun kv => kv.2))

/-- Line 108 of `create_phrase_level_data`: `", ".join(x)`. -/
def create_phrase_display (l : List String) : String :=
  joinWith ", " l

/-- Per-row composition of `create_phrase_level_data` (lines 101-108):
the `*_list` and display cells for one row, or `none` when the dict-building
step raises on a NaN source cell. -/
def create_phrase_level_row (mentions : Option (List PhraseMention)) (q3xEdit : String) :
    Option (List String × String) :=
  match create_phrase_dict mentions q3xEdit with
  | none => none
  | some dicts =>
    some (create_phrase_list (DictCell.listVal dicts),
          create_phrase_display (create_phrase_list (DictCell.listVal dicts)))

/-- One row of the dataframe after `preproccess_filter_comment_text` has
added its columns (lines 25-35 of the source). -/
structure ProcessedRow where
  Q3_x : String
  Q3_pii_removed : String
  language : String
  is_en : Bool
deriving DecidableEq

/-- The language codes accepted by `isin(["en", "un", "-", "sco"])` at
line 35 of the source. -/
def english_like : List String := ["en", "un", "-", "sco"]

/-- Lines 25-37 of `preproccess_filter_comment_text`: replace PII in
`Q3_x`, keep rows whose redacted text is shorter than the threshold, detect
the language, flag `is_en`, and return only the flagged rows.  PII
replacement and language detection are external collaborators, passed in as
functions. -/
def preproccess_filter_comment_text
    (replace_pii_regex detect_language : String → String)
    (length_threshold : Nat) (rows : List String) : List ProcessedRow :=
  ((((rows.map (fun q => (q, replace_pii_regex q))).filter
      (fun p => decide (p.2.length < length_threshold))).map
    (fun p => ⟨p.1, p.2, detect_language p.2,
               decide (detect_language p.2 ∈ english_like)⟩)).filter
    (fun r => r.is_en))

/-- One tagged token: (surface form, POS tag, lemma). -/
abbrev TaggedToken := String × String × String

/-- One tagged sentence. -/
abbrev TaggedSentence := List TaggedToken

/-- Lines 140-142 of `create_dataset`: the `pos_tag` column —
`part_of_speech_tag(x[0]) if x[1] else []` applied to
`(Q3_pii_removed, is_en)` for each row of the filtered dataframe. -/
def pos_tag_column (part_of_speech_tag : String → List TaggedSentence)
    (rows : List ProcessedRow) : List (ProcessedRow × List TaggedSentence) :=
  rows.map (fun r => (r, if r.is_en then part_of_speech_tag r.Q3_pii_removed else []))

/-- C1: every Phrase Mention appended to any row's theme_mentions list by
extract_phrase_mentions has a key belonging to the 6-entry allow-list;
no mention with any other key is ever emitted. -/
theorem extract_phrase_mentions_keys_allowed
    (regex_group_verbs regex_for_theme : String → String)
    (parsed : List (List (List Chunk))) (row : List PhraseMention) (m : PhraseMention)
    (hrow : row ∈ extract_phrase_mentions regex_group_verbs regex_for_theme parsed)
    (hm : m ∈ row) :
    m.key ∈ allowed_keys := by
  rcases List.mem_map.mp hrow with ⟨sents, _, hsent⟩
  subst hsent
  rcases List.mem_filterMap.mp hm with ⟨combo, _, hc⟩
  simp only [process_combo] at hc
  split at hc
  · next h =>
      cases hc
      exact h
  · exact Option.noConfusion hc

/-- Witness for C1: a concrete verb-noun sentence whose single emitted
mention has its key in the allow-list. -/
theorem extract_phrase_mentions_keys_allowed_witness :
    (⟨("verb", "noun"), "go home", "u - u", ("go", "home")⟩ : PhraseMention).key ∈ allowed_keys :=
  extract_phrase_mentions_keys_allowed (fun _ => "u") (fun _ => "u")
    [[[⟨"verb", "go"⟩, ⟨"noun", "home"⟩]]]
    [⟨("verb", "noun"), "go home", "u - u", ("go", "home")⟩]
    ⟨("verb", "noun"), "go home", "u - u", ("go", "home")⟩
    (by decide) (by decide)

/-- C8: the bracket/plus-stripping transform is idempotent — applying it
twice to any string yields the same result as applying it once. -/
theorem stripBrackets_idempotent (s : String) :
    stripBrackets (stripBrackets s) = stripBrackets s := by
  simp only [stripBrackets]
  congr 1
  simp [List.filter_filter]

/-- C3: for every accepted chunk pair, the emitted args are the lowercased
chunk texts with the five bracket/plus characters deleted (none of them
survives), and the emitted phrase is the two post-strip args joined by
exactly one space. -/
theorem process_combo_strips_and_joins
    (regex_group_verbs regex_for_theme : String → String) (c1 c2 : Chunk) (m : PhraseMention)
    (h : process_combo regex_group_verbs regex_for_theme c1 c2 = some m) :
    m.args.1 = stripBrackets (lowerStr c1.text) ∧
    m.args.2 = stripBrackets (lowerStr c2.text) ∧
    m.phrase = m.args.1 ++ " " ++ m.args.2 ∧
    (∀ c ∈ m.args.1.data, isStripChar c = false) ∧
    (∀ c ∈ m.args.2.data, isStripChar c = false) := by
  simp only [process_combo] at h
  split at h
  · cases h
    refine ⟨rfl, rfl, rfl, ?_, ?_⟩
    · intro c hc
      have hmem := List.mem_filter.mp hc
      simpa using hmem.2
    · intro c hc
      have hmem := List.mem_filter.mp hc
      simpa using hmem.2
  · exact Option.noConfusion h

/-- Witness for C3: the chunk text "Apply(Now)" fuses to "applynow" (the
deleted brackets leave no space behind), and the phrase is the single-space
join of the post-strip args. -/
theorem process_combo_strips_and_joins_witness :
    ("applynow" : String) = stripBrackets (lowerStr "Apply(Now)") ∧
    ("the form" : String) = stripBrackets (lowerStr "the [form]") ∧
    ("applynow the form" : String) = "applynow" ++ " " ++ "the form" ∧
    (∀ c ∈ ("applynow" : String).data, isStripChar c = false) ∧
    (∀ c ∈ ("the form" : String).data, isStripChar c = false) :=
  process_combo_strips_and_joins (fun _ => "u") (fun _ => "t")
    ⟨"verb", "Apply(Now)"⟩ ⟨"noun", "the [form]"⟩
    ⟨("verb", "noun"), "applynow the form", "u - t", ("applynow", "the form")⟩ rfl

/-- C4: for every accepted chunk pair, the theme is the verb-group
classifier applied to the lowercased text of the first chunk joined by
" - " to the theme classifier applied to the lowercased text of the second
chunk, both evaluated before the bracket/plus stripping. -/
theorem process_combo_theme_unstripped
    (regex_group_verbs regex_for_theme : String → String) (c1 c2 : Chunk) (m : PhraseMention)
    (h : process_combo regex_group_verbs regex_for_theme c1 c2 = some m) :
    m.theme = regex_group_verbs (lowerStr c1.text) ++ " - " ++ regex_for_theme (lowerStr c2.text) := by
  simp only [process_combo] at h
  split at h
  · cases h
    rfl
  · exact Option.noConfusion h

/-- Witness for C4: a verb-group classifier that reacts to the brackets of
"apply(now)" fires, proving classification sees the unstripped lowercase
text. -/
theorem process_combo_theme_unstripped_witness :
    (⟨("verb", "prep_noun"), "applynow on time", "SEESBRACKETS - T",
        ("applynow", "on time")⟩ : PhraseMention).theme
      = (fun s => if s = ("apply(now)" : String) then "SEESBRACKETS" else "PLAIN")
          (lowerStr "Apply(Now)")
        ++ " - " ++ (fun _ => "T") (lowerStr "on time") :=
  process_combo_theme_unstripped
    (fun s => if s = ("apply(now)" : String) then "SEESBRACKETS" else "PLAIN") (fun _ => "T")
    ⟨"verb", "Apply(Now)"⟩ ⟨"prep_noun", "on time"⟩
    ⟨("verb", "prep_noun"), "applynow on time", "SEESBRACKETS - T", ("applynow", "on time")⟩
    (by decide)

/-- Counterexample to C2: the haystack handed to find_needle by
create_phrase_level_data is `x[1].lower()` — the lower-cased `Q3_x_edit`
text — so the resolved substring for the phrase "project funding" over the
comment "We discussed Project Funding yesterday." is the lower-cased
"project funding", not the original-cased "Project Funding", and the lowered
haystack differs from the merely normalized comment text. -/
theorem create_phrase_dict_haystack_lowercased_cex :
    create_phrase_dict
        (some [⟨("noun", "prep_noun"), "project funding", "t", ("project", "funding")⟩])
        (Q3_x_edit (some "We discussed Project Funding yesterday."))
      = some [[("project funding", some "project funding")]] ∧
    ("project funding" : String) ≠ "Project Funding" ∧
    lowerStr (Q3_x_edit (some "We discussed Project Funding yesterday."))
      ≠ Q3_x_edit (some "We discussed Project Funding yesterday.") :=
  ⟨rfl, by decide, by decide⟩

/-- C2 amended: the haystack passed to find_needle is the
whitespace-normalized, bracket/plus-stripped comment text additionally
LOWER-CASED; a lowercase phrase still matches it, but the resolved substring
is the lower-cased occurrence ("project funding"), not the original
casing. -/
theorem find_needle_on_lowered_haystack :
    create_phrase_dict
        (some [⟨("noun", "prep_noun"), "project funding", "t", ("project", "funding")⟩])
        (Q3_x_edit (some "We discussed Project Funding yesterday."))
      = some [find_needle "project funding"
          (lowerStr (Q3_x_edit (some "We discussed Project Funding yesterday.")))] ∧
    find_needle "project funding"
        (lowerStr (Q3_x_edit (some "We discussed Project Funding yesterday.")))
      = [("project funding", some "project funding")] :=
  ⟨rfl, rfl⟩

/-- Counterexample to C5: a missing/NaN phrase-source cell is NOT treated as
an empty list — the dict-building step of create_phrase_level_data iterates
the float NaN and raises TypeError (modelled as none), so no empty *_list
and no empty display string are produced for that row. -/
theorem create_phrase_level_nan_raises_cex :
    create_phrase_dict none (Q3_x_edit (some "some comment")) = none ∧
    create_phrase_level_row none (Q3_x_edit (some "some comment")) = none :=
  ⟨rfl, rfl⟩

/-- C5 amended: the NaN-as-empty tolerance sits one step later — when the
`*_dict` cell is the float NaN, the `isinstance(x, float)` check of the
`*_list` step yields an empty list, and the display string is then empty;
a NaN in the phrase-source column itself makes the `*_dict` step raise. -/
theorem create_phrase_list_nan_empty :
    create_phrase_list DictCell.nanFloat = [] ∧
    create_phrase_display (create_phrase_list DictCell.nanFloat) = "" :=
  ⟨rfl, rfl⟩

/-- C6: for every comment row, the `*_list` cell is exactly the non-absent
values resolved by find_needle for the row's Phrase Mentions, flattened in
mention order, and the display column joins them with ", ". -/
theorem create_phrase_list_flattens_resolved (ms : List PhraseMention) (q3 : String) :
    create_phrase_dict (some ms) q3
      = some (ms.map (fun m => find_needle m.phrase (lowerStr q3))) ∧
    create_phrase_list
        (DictCell.listVal (ms.map (fun m => find_needle m.phrase (lowerStr q3))))
      = (ms.map (fun m => find_needle_res m.phrase (lowerStr q3))).filterMap id ∧
    create_phrase_display
        (create_phrase_list
          (DictCell.listVal (ms.map (fun m => find_needle m.phrase (lowerStr q3)))))
      = joinWith ", " ((ms.map (fun m => find_needle_res m.phrase (lowerStr q3))).filterMap id) := by
  have hlist : ∀ l : List PhraseMention,
      create_phrase_list (DictCell.listVal (l.map (fun m => find_needle m.phrase (lowerStr q3))))
        = (l.map (fun m => find_needle_res m.phrase (lowerStr q3))).filterMap id := by
    intro l
    induction l with
    | nil => rfl
    | cons m rest ih =>
      simp only [List.map_cons, create_phrase_list, List.flatMap_cons,
                 List.filterMap_cons, find_needle] at ih ⊢
      cases h : find_needle_res m.phrase (lowerStr q3) <;>
        simp [h, ih]
  exact ⟨rfl, hlist ms, congrArg (joinWith ", ") (hlist ms)⟩

/-- C7: a comment row all of whose parsed sentences contain zero chunks
produces an empty theme_mentions list, and the aggregation then produces an
empty *_list and an empty phrases display string, without error. -/
theorem zero_chunks_empty_output
    (regex_group_verbs regex_for_theme : String → String)
    (sents : List (List Chunk)) (q3 : String)
    (h : ∀ s ∈ sents, s = []) :
    extract_phrase_mentions_row regex_group_verbs regex_for_theme sents = [] ∧
    create_phrase_level_row
        (some (extract_phrase_mentions_row regex_group_verbs regex_for_theme sents)) q3
      = some ([], "") := by
  have hcc : ∀ l : List (List Chunk), (∀ s ∈ l, s = []) → compute_combinations l = [] := by
    intro l
    induction l with
    | nil => intro _; rfl
    | cons s rest ih =>
      intro hl
      have hs : s = [] := hl s (List.mem_cons_self s rest)
      have hrest := ih (fun t ht => hl t (List.mem_cons_of_mem s ht))
      simp only [compute_combinations, List.map_cons, List.flatten_cons] at hrest ⊢
      rw [hs, hrest]
      rfl
  have hrow : extract_phrase_mentions_row regex_group_verbs regex_for_theme sents = [] := by
    unfold extract_phrase_mentions_row
    rw [hcc sents h]
    rfl
  refine ⟨hrow, ?_⟩
  rw [hrow]
  rfl

/-- Witness for C7: two chunkless sentences yield no mentions, an empty
list and an empty display string. -/
theorem zero_chunks_empty_output_witness :
    extract_phrase_mentions_row (fun _ => "u") (fun _ => "u") [[], []] = [] ∧
    create_phrase_level_row
        (some (extract_phrase_mentions_row (fun _ => "u") (fun _ => "u") [[], []])) "hello"
      = some ([], "") :=
  zero_chunks_empty_output (fun _ => "u") (fun _ => "u") [[], []] "hello" (by decide)

/-- C9: every row of the dataframe returned by
preproccess_filter_comment_text has a redacted comment text strictly shorter
than the length threshold and a detected language in {"en", "un", "-",
"sco"}. -/
theorem preproccess_filter_comment_text_post
    (replace_pii_regex detect_language : String → String)
    (length_threshold : Nat) (rows : List String) (r : ProcessedRow)
    (hr : r ∈ preproccess_filter_comment_text replace_pii_regex detect_language
        length_threshold rows) :
    r.Q3_pii_removed.length < length_threshold ∧ r.language ∈ english_like := by
  unfold preproccess_filter_comment_text at hr
  rcases List.mem_filter.mp hr with ⟨hmem, hen⟩
  rcases List.mem_map.mp hmem with ⟨p, hp, rfl⟩
  rcases List.mem_filter.mp hp with ⟨_, hlen⟩
  exact ⟨of_decide_eq_true hlen, of_decide_eq_true hen⟩

/-- Witness for C9: a concrete run keeping a short English row. -/
theorem preproccess_filter_comment_text_post_witness :
    (⟨"hi", "hi", "en", true⟩ : ProcessedRow).Q3_pii_removed.length < 10 ∧
    (⟨"hi", "hi", "en", true⟩ : ProcessedRow).language ∈ english_like :=
  preproccess_filter_comment_text_post (fun s => s) (fun _ => "en") 10 ["hi"]
    ⟨"hi", "hi", "en", true⟩ (by decide)

/-- C10: the empty-list fallback of the POS-tagging step of create_dataset
is unreachable — every row coming out of preproccess_filter_comment_text has
is_en = true, so the pos_tag cell is always part_of_speech_tag applied to
the redacted text, never the [] branch. -/
theorem pos_tag_fallback_unreachable
    (part_of_speech_tag : String → List TaggedSentence)
    (replace_pii_regex detect_language : String → String)
    (length_threshold : Nat) (rows : List String)
    (pr : ProcessedRow × List TaggedSentence)
    (hpr : pr ∈ pos_tag_column part_of_speech_tag
        (preproccess_filter_comment_text replace_pii_regex detect_language
          length_threshold rows)) :
    pr.1.is_en = true ∧ pr.2 = part_of_speech_tag pr.1.Q3_pii_removed := by
  rcases List.mem_map.mp hpr with ⟨r, hrmem, rfl⟩
  unfold preproccess_filter_comment_text at hrmem
  have hen : r.is_en = true := (List.mem_filter.mp hrmem).2
  exact ⟨hen, by simp [hen]⟩

/-- Witness for C10: a concrete run in which the filtered row's pos_tag cell
is the tagger's output. -/
theorem pos_tag_fallback_unreachable_witness :
    (⟨"hi", "hi", "en", true⟩ : ProcessedRow).is_en = true ∧
    ([[("hi", "NN", "hi")]] : List TaggedSentence)
      = (fun s => [[(s, "NN", s)]] : String → List TaggedSentence)
          (⟨"hi", "hi", "en", true⟩ : ProcessedRow).Q3_pii_removed :=
  pos_tag_fallback_unreachable (fun s => [[(s, "NN", s)]]) (fun s => s) (fun _ => "en")
    10 ["hi"] (⟨"hi", "hi", "en", true⟩, [[("hi", "NN", "hi")]]) (by decide)
